import Mathlib

/-!
Verification of the Turbo constraint solver's variable store, model
builder and driver configuration against their C++ sources.

The embedding covers, faithfully to the source:
- the interval type shared by both store revisions (vstore.cuh and the
  atomic revision in cuda_helper.hpp);
- the current `VStore` (atomic revision): `dom`, `update_lb`,
  `update_ub`, `update`, `assign`, `reset`, copy construction, and the
  private `update_top` helper, together with a small operation language
  used to reason about arbitrary call sequences;
- the older `VStore` of vstore.cuh (`OldVStore` here), whose
  `operator[]` and `update` translate negative indices into the negated
  view of the positive slot;
- the `ModelBuilder` routines `make_temporal_constraint`,
  `strengthen_domain2`, `le_mul_domain`, `tautology`, `add_var` and
  `build_store`;
- the driver `Configuration` default constructor.

Machine `int` arithmetic: the operations verified here only compare,
copy and negate bounds, or divide constants supplied by the model; no
wrap-around behaviour is exercised, so bounds are modelled as
unbounded `Int` with C++ truncated division (`Int.tdiv` / `Int.tmod`).
-/

namespace Turbo

/-- `limit_min()` of cuda_helper.hpp: `-__INT_MAX__ - 1`. -/
def limit_min : Int := -2147483648

/-- `limit_max()` of cuda_helper.hpp: `__INT_MAX__`. -/
def limit_max : Int := 2147483647

/-- An interval of integers, as in both store revisions: a pair of
bounds.  (The atomic revision stores the bounds in relaxed atomics; all
claims here are about the sequential semantics, so plain fields.) -/
structure Interval where
  lb : Int
  ub : Int
deriving Repr, DecidableEq, BEq

/-- The default-constructed interval `(limit_min, limit_max)`
(`Interval()` in both revisions). -/
def Interval.top_default : Interval := ⟨limit_min, limit_max⟩

/-- `Interval::is_assigned`: `lb() == ub()`. -/
def Interval.is_assigned (i : Interval) : Bool := i.lb == i.ub

/-- `Interval::is_top`: `lb() > ub()` (the empty interval). -/
def Interval.is_top (i : Interval) : Bool := decide (i.lb > i.ub)

/-- `Interval::neg`: `(-ub(), -lb())`. -/
def Interval.neg (i : Interval) : Interval := ⟨-i.ub, -i.lb⟩

/-- The current `VStore` (cuda_helper.hpp revision): a fixed array of
intervals plus the sticky `top` flag.  The variable names held by the
store play no role in the verified operations and are omitted. -/
structure VStore where
  data : List Interval
  top : Bool
deriving Repr, DecidableEq

/-- Reading slot `x` of the store (`data[x]`). -/
def VStore.getI (s : VStore) (x : Nat) : Interval :=
  s.data.getD x Interval.top_default

/-- `VStore::is_top()`: the store-wide flag. -/
def VStore.is_top (s : VStore) : Bool := s.top

/-- `VStore::size()`. -/
def VStore.size (s : VStore) : Nat := s.data.length

/-- Private `VStore::update_top(x)`: raise the flag when slot `x` is
empty.  Note it never clears the flag. -/
def VStore.update_top (s : VStore) (x : Nat) : VStore :=
  if (s.getI x).is_top then { s with top := true } else s

/-- `VStore::dom(x, itv)`: unconditional write of both bounds followed
by `update_top(x)`. -/
def VStore.dom (s : VStore) (x : Nat) (itv : Interval) : VStore :=
  VStore.update_top { s with data := s.data.set x itv } x

/-- `VStore::update_lb(i, lb)`: store the new lower bound only when it
is strictly tighter; report whether the store changed. -/
def VStore.update_lb (s : VStore) (i : Nat) (lb : Int) : VStore × Bool :=
  if (s.getI i).lb < lb then
    (VStore.update_top { s with data := s.data.set i ⟨lb, (s.getI i).ub⟩ } i, true)
  else
    (s, false)

/-- `VStore::update_ub(i, ub)`: dually for the upper bound. -/
def VStore.update_ub (s : VStore) (i : Nat) (ub : Int) : VStore × Bool :=
  if (s.getI i).ub > ub then
    (VStore.update_top { s with data := s.data.set i ⟨(s.getI i).lb, ub⟩ } i, true)
  else
    (s, false)

/-- `VStore::update(i, itv)`: both bounds; the change bits are or-ed. -/
def VStore.update (s : VStore) (i : Nat) (itv : Interval) : VStore × Bool :=
  let r1 := s.update_lb i itv.lb
  let r2 := r1.1.update_ub i itv.ub
  (r2.1, r1.2 || r2.2)

/-- `VStore::assign(i, v)`: `update(i, {v, v})`. -/
def VStore.assign (s : VStore) (i : Nat) (v : Int) : VStore × Bool :=
  s.update i ⟨v, v⟩

/-- `VStore::reset(other)`: copy every interval and the top flag from
`other` (the source asserts `size() == other.size()`; under that
precondition the loop copies exactly `other`'s slots). -/
def VStore.reset (s other : VStore) : VStore :=
  { data := (List.range s.data.length).map (fun i => other.getI i),
    top := other.top }

/-- The copy constructor `VStore(const VStore&)`: `data(other.data)`,
`top(false)`.  The element-wise behaviour of the `Array<Interval>` copy
constructor lives in memory.hpp, which is not part of the sources;
modelled from the spec: "clone() — structural copy", i.e. the interval
sequence is copied unchanged.  The `top(false)` initializer is verbatim
from cuda_helper.hpp. -/
def VStore.clone (other : VStore) : VStore :=
  { data := other.data, top := false }

/-- The public mutating operations of the current `VStore`, as an
operation language so that claims can quantify over arbitrary call
sequences. -/
inductive StoreOp where
  | dom (x : Nat) (itv : Interval)
  | update_lb (i : Nat) (lb : Int)
  | update_ub (i : Nat) (ub : Int)
  | update (i : Nat) (itv : Interval)
  | assign (i : Nat) (v : Int)
deriving Repr, DecidableEq

/-- The slot written by an operation. -/
def StoreOp.target : StoreOp → Nat
  | .dom x _ => x
  | .update_lb i _ => i
  | .update_ub i _ => i
  | .update i _ => i
  | .assign i _ => i

/-- The guarded narrowing operations (everything except the
unconditional builder-only write `dom`). -/
def StoreOp.narrowing : StoreOp → Bool
  | .dom _ _ => false
  | _ => true

/-- Run one operation. -/
def VStore.applyOp (s : VStore) : StoreOp → VStore
  | .dom x itv => s.dom x itv
  | .update_lb i lb => (s.update_lb i lb).1
  | .update_ub i ub => (s.update_ub i ub).1
  | .update i itv => (s.update i itv).1
  | .assign i v => (s.assign i v).1

/-- Run a sequence of operations, oldest first. -/
def VStore.applyOps (s : VStore) (ops : List StoreOp) : VStore :=
  ops.foldl VStore.applyOp s

/-! Basic lemmas about slot access and `update_top`. -/

theorem getI_set_self (s : VStore) (i : Nat) (a : Interval) (h : i < s.data.length) :
    VStore.getI { s with data := s.data.set i a } i = a := by
  simp [VStore.getI, List.getD, List.getElem?_set_self', h]

theorem getI_set_ne (s : VStore) (i j : Nat) (a : Interval) (h : i ≠ j) :
    VStore.getI { s with data := s.data.set i a } j = s.getI j := by
  simp [VStore.getI, List.getD, List.getElem?_set_ne h]

theorem getI_set_oob (s : VStore) (i : Nat) (a : Interval) (h : s.data.length ≤ i) :
    VStore.getI { s with data := s.data.set i a } i = s.getI i := by
  simp [VStore.getI, List.set_eq_of_length_le h]

theorem update_top_getI (s : VStore) (x v : Nat) :
    (s.update_top x).getI v = s.getI v := by
  unfold VStore.update_top
  split <;> rfl

theorem update_top_of_top (s : VStore) (x : Nat) (h : s.top = true) :
    (s.update_top x).top = true := by
  unfold VStore.update_top
  split <;> simp [h]

theorem update_top_of_empty (s : VStore) (x : Nat) (h : (s.getI x).is_top = true) :
    (s.update_top x).top = true := by
  unfold VStore.update_top
  simp [h]

/-! Monotonicity of the guarded narrowing operations (claim C1). -/

theorem update_lb_mono (s : VStore) (i : Nat) (lb : Int) (v : Nat) :
    (s.getI v).lb ≤ ((s.update_lb i lb).1.getI v).lb ∧
    ((s.update_lb i lb).1.getI v).ub ≤ (s.getI v).ub := by
  unfold VStore.update_lb
  split
  · rename_i hguard
    rw [update_top_getI]
    by_cases hiv : i = v
    · subst hiv
      by_cases hr : i < s.data.length
      · rw [getI_set_self s i _ hr]
        exact ⟨le_of_lt hguard, le_refl _⟩
      · rw [getI_set_oob s i _ (Nat.le_of_not_lt hr)]
        exact ⟨le_refl _, le_refl _⟩
    · rw [getI_set_ne s i v _ hiv]
      exact ⟨le_refl _, le_refl _⟩
  · exact ⟨le_refl _, le_refl _⟩

theorem update_ub_mono (s : VStore) (i : Nat) (ub : Int) (v : Nat) :
    (s.getI v).lb ≤ ((s.update_ub i ub).1.getI v).lb ∧
    ((s.update_ub i ub).1.getI v).ub ≤ (s.getI v).ub := by
  unfold VStore.update_ub
  split
  · rename_i hguard
    rw [update_top_getI]
    by_cases hiv : i = v
    · subst hiv
      by_cases hr : i < s.data.length
      · rw [getI_set_self s i _ hr]
        exact ⟨le_refl _, le_of_lt hguard⟩
      · rw [getI_set_oob s i _ (Nat.le_of_not_lt hr)]
        exact ⟨le_refl _, le_refl _⟩
    · rw [getI_set_ne s i v _ hiv]
      exact ⟨le_refl _, le_refl _⟩
  · exact ⟨le_refl _, le_refl _⟩

theorem update_mono (s : VStore) (i : Nat) (itv : Interval) (v : Nat) :
    (s.getI v).lb ≤ ((s.update i itv).1.getI v).lb ∧
    ((s.update i itv).1.getI v).ub ≤ (s.getI v).ub := by
  have h1 := update_lb_mono s i itv.lb v
  have h2 := update_ub_mono (s.update_lb i itv.lb).1 i itv.ub v
  exact ⟨le_trans h1.1 h2.1, le_trans h2.2 h1.2⟩

theorem applyOp_mono (s : VStore) (op : StoreOp) (hop : op.narrowing = true) (v : Nat) :
    (s.getI v).lb ≤ ((s.applyOp op).getI v).lb ∧
    ((s.applyOp op).getI v).ub ≤ (s.getI v).ub := by
  cases op with
  | dom x itv => simp [StoreOp.narrowing] at hop
  | update_lb i lb => exact update_lb_mono s i lb v
  | update_ub i ub => exact update_ub_mono s i ub v
  | update i itv => exact update_mono s i itv v
  | assign i k => exact update_mono s i ⟨k, k⟩ v

/-! Stickiness of the top flag (claim C2). -/

theorem update_lb_of_top (s : VStore) (i : Nat) (lb : Int) (h : s.top = true) :
    (s.update_lb i lb).1.top = true := by
  unfold VStore.update_lb
  split
  · exact update_top_of_top _ _ h
  · exact h

theorem update_ub_of_top (s : VStore) (i : Nat) (ub : Int) (h : s.top = true) :
    (s.update_ub i ub).1.top = true := by
  unfold VStore.update_ub
  split
  · exact update_top_of_top _ _ h
  · exact h

theorem applyOp_of_top (s : VStore) (op : StoreOp) (h : s.top = true) :
    (s.applyOp op).top = true := by
  cases op with
  | dom x itv => exact update_top_of_top _ _ h
  | update_lb i lb => exact update_lb_of_top s i lb h
  | update_ub i ub => exact update_ub_of_top s i ub h
  | update i itv => exact update_ub_of_top _ i itv.ub (update_lb_of_top s i itv.lb h)
  | assign i k => exact update_ub_of_top _ i k (update_lb_of_top s i k h)

/-! Emptiness raises the flag (claim C3). -/

theorem update_lb_empty_top (s : VStore) (i : Nat) (lb : Int)
    (h0 : (s.getI i).is_top = false)
    (h1 : ((s.update_lb i lb).1.getI i).is_top = true) :
    (s.update_lb i lb).1.top = true := by
  revert h1
  unfold VStore.update_lb
  split
  · intro h1
    rw [update_top_getI] at h1
    exact update_top_of_empty _ _ h1
  · intro h1
    rw [h0] at h1
    exact absurd h1 (by simp)

theorem update_ub_empty_top (s : VStore) (i : Nat) (ub : Int)
    (h0 : (s.getI i).is_top = false)
    (h1 : ((s.update_ub i ub).1.getI i).is_top = true) :
    (s.update_ub i ub).1.top = true := by
  revert h1
  unfold VStore.update_ub
  split
  · intro h1
    rw [update_top_getI] at h1
    exact update_top_of_empty _ _ h1
  · intro h1
    rw [h0] at h1
    exact absurd h1 (by simp)

theorem update_empty_top (s : VStore) (i : Nat) (itv : Interval)
    (h0 : (s.getI i).is_top = false)
    (h1 : ((s.update i itv).1.getI i).is_top = true) :
    (s.update i itv).1.top = true := by
  have e : (s.update i itv).1 = ((s.update_lb i itv.lb).1.update_ub i itv.ub).1 := rfl
  rw [e] at h1 ⊢
  by_cases hmid : ((s.update_lb i itv.lb).1.getI i).is_top = true
  · exact update_ub_of_top _ i itv.ub (update_lb_empty_top s i itv.lb h0 hmid)
  · exact update_ub_empty_top _ i itv.ub (Bool.not_eq_true _ ▸ hmid) h1

theorem dom_empty_top (s : VStore) (x : Nat) (itv : Interval)
    (h : ((s.dom x itv).getI x).is_top = true) :
    (s.dom x itv).top = true := by
  unfold VStore.dom at h ⊢
  rw [update_top_getI] at h
  exact update_top_of_empty _ _ h

/-! The older `VStore` of vstore.cuh: no top flag; `operator[]` and
`update` translate a negative index into the negated view of the
positive slot. -/

structure OldVStore where
  data : List Interval
deriving Repr, DecidableEq

/-- `VStore::operator[](int i)` of vstore.cuh:
`i < 0 ? data[-i].neg() : data[i]`. -/
def OldVStore.getItv (s : OldVStore) (i : Int) : Interval :=
  if i < 0 then (s.data.getD (-i).toNat Interval.top_default).neg
  else s.data.getD i.toNat Interval.top_default

/-- `VStore::update(int i, Interval itv)` of vstore.cuh: through a
negative index, store `(-itv.ub, -itv.lb)` into slot `-i`; otherwise
overwrite slot `i` with `itv`.  Returns whether the slot changed. -/
def OldVStore.update (s : OldVStore) (i : Int) (itv : Interval) : OldVStore × Bool :=
  if i < 0 then
    let j := (-i).toNat
    let old := s.data.getD j Interval.top_default
    (⟨s.data.set j ⟨-itv.ub, -itv.lb⟩⟩, old.lb != -itv.ub || old.ub != -itv.lb)
  else
    let j := i.toNat
    let old := s.data.getD j Interval.top_default
    (⟨s.data.set j itv⟩, old != itv)

/-! The model builder (part_000).  `var2idx` maps a name to an index
and a domain and `idx2var` records registration order; with the
distinct names produced by registration these collapse into one
ordered association list whose position is the variable index. -/

/-- The XCSP3 `OrderType` operator enumeration. -/
inductive OrderType where
  | LE | LT | GE | GT | IN | EQ | NE
deriving Repr, DecidableEq

/-- The propagator shapes produced by `make_temporal_constraint`:
`TemporalProp(x, y, k)` enforcing `x <= y + k` on signed indices, and
`LogicalAnd` of two propagators. -/
inductive Propagator where
  | TemporalProp (x y k : Int)
  | LogicalAnd (p1 p2 : Propagator)
deriving Repr, DecidableEq

def unsupported_unary_msg : String :=
  "Operators IN and NE are not supported in unary constraints."

/-- `ModelBuilder::make_temporal_constraint(x, k, op, y)` acting on the
resolved indices `xi`, `yi` of `x` and `y`.  The C++ first rewrites
`LT` into `LE` with `k - 1` and `GT` into `GE` with `k + 1`, then the
`LE` case negates `yi` and `k`, the `GE` case negates `xi`, the `EQ`
case recursively builds the `LE` and `GE` propagators (inlined below:
the recursion has depth one) and conjoins them, and `IN`/`NE` throw. -/
def make_temporal_constraint (xi yi : Int) (k : Int) (op : OrderType) :
    Except String Propagator :=
  match op with
  | .LT => .ok (.TemporalProp xi (-yi) (-(k - 1)))
  | .GT => .ok (.TemporalProp (-xi) yi (k + 1))
  | .LE => .ok (.TemporalProp xi (-yi) (-k))
  | .GE => .ok (.TemporalProp (-xi) yi k)
  | .EQ => .ok (.LogicalAnd (.TemporalProp xi (-yi) (-k)) (.TemporalProp (-xi) yi k))
  | .NE => .error unsupported_unary_msg
  | .IN => .error unsupported_unary_msg

/-- The interval mutation performed by
`ModelBuilder::strengthen_domain2(x, op, k)` on the domain recorded
for `x`: the source is a sequence of (non-exclusive) `if`s on `op`,
`EQ` matching both the `LE` and the `GE` one, and `IN`/`NE` throwing. -/
def strengthen_itv (v : Interval) (op : OrderType) (k : Int) : Except String Interval :=
  let v := if op = .LT then { v with ub := k - 1 } else v
  let v := if op = .GT then { v with lb := k + 1 } else v
  let v := if op = .LE ∨ op = .EQ then { v with ub := k } else v
  let v := if op = .GE ∨ op = .EQ then { v with lb := k } else v
  if op = .IN ∨ op = .NE then .error unsupported_unary_msg
  else .ok v

structure ModelBuilder where
  vars : List (String × Interval)
deriving Repr, DecidableEq

/-- The name of the sentinel registered on a root contradiction. -/
def fake_var_name : String := "fake var (contradiction detected at root node)"

/-- `ModelBuilder::add_var(name, min, max)`: append the variable with
domain `(min, max)` at the next index. -/
def ModelBuilder.add_var (b : ModelBuilder) (name : String) (mn mx : Int) : ModelBuilder :=
  ⟨b.vars ++ [(name, ⟨mn, mx⟩)]⟩

/-- The domain recorded for name `x` (`std::get<1>(var2idx[x])`);
modelled for registered names (the map's default insertion for an
unknown name is not exercised by the builder paths verified here). -/
def ModelBuilder.find_dom (b : ModelBuilder) (x : String) : Interval :=
  (((b.vars.find? (fun p => p.1 == x)).map Prod.snd).getD Interval.top_default)

/-- Write the domain recorded for name `x`. -/
def ModelBuilder.set_dom (b : ModelBuilder) (x : String) (itv : Interval) : ModelBuilder :=
  ⟨b.vars.map (fun p => if p.1 == x then (p.1, itv) else p)⟩

/-- `ModelBuilder::strengthen_domain2(x, op, k)`: mutate the domain
recorded for `x` (a reference into `var2idx` in the C++). -/
def ModelBuilder.strengthen_domain2 (b : ModelBuilder) (x : String) (op : OrderType)
    (k : Int) : Except String ModelBuilder :=
  match strengthen_itv (b.find_dom x) op k with
  | .ok itv => .ok (b.set_dom x itv)
  | .error e => .error e

/-- `ModelBuilder::le_mul_domain` after shape matching, acting on the
extracted variable name `x` and constants `a`, `b` of `X * a <= b`.
C++ `/` and `%` truncate toward zero: `Int.tdiv` / `Int.tmod`. -/
def ModelBuilder.le_mul_domain (bl : ModelBuilder) (x : String) (a b : Int) :
    Except String ModelBuilder :=
  if a = 0 then
    if b < 0 then .ok (bl.add_var fake_var_name 1 0)
    else .ok bl
  else if b = 0 then
    if a > 0 then bl.strengthen_domain2 x .LE 0
    else bl.strengthen_domain2 x .GE 0
  else
    let res := Int.tdiv b a
    if a > 0 ∧ b > 0 then bl.strengthen_domain2 x .LE res
    else if a > 0 ∧ b < 0 then bl.strengthen_domain2 x .LE (res - Int.tmod (-b) a)
    else if a < 0 ∧ b > 0 then bl.strengthen_domain2 x .GE res
    else bl.strengthen_domain2 x .GE (res + Int.tmod (-b) (-a))

/-- `ModelBuilder::tautology(node)` in the case where both parameters
are constants `c1`, `c2`: a true comparison is dropped; a false one
registers the empty-domain sentinel.  Both return `treated = true` and
neither throws. -/
def ModelBuilder.tautology (b : ModelBuilder) (c1 c2 : Int) : ModelBuilder × Bool :=
  if c1 ≤ c2 then (b, true)
  else (b.add_var fake_var_name 1 0, true)

/-- The `dom` loop of `ModelBuilder::build_store`, one slot per
registered variable (the C++ iterates the name-keyed map; the slots
written are distinct, so registration order gives the same store). -/
def domsFrom (s : VStore) (i : Nat) : List (String × Interval) → VStore
  | [] => s
  | v :: rest => domsFrom (s.dom i v.2) (i + 1) rest

/-- `ModelBuilder::build_store()`: a fresh store of `idx2var.size()`
default intervals (`Array<Interval>` element construction is in the
absent memory.hpp; modelled from the spec: "new(n) — allocate n
intervals at (INT_MIN, INT_MAX), top=false"), then `dom` per
registered variable. -/
def ModelBuilder.build_store (b : ModelBuilder) : VStore :=
  domsFrom ⟨List.replicate b.vars.length Interval.top_default, false⟩ 0 b.vars

/-! The driver configuration (config.hpp section of vstore.cuh). -/

def SUBPROBLEMS_POWER : Nat := 12
def STACK_KB : Nat := 32

/-- `std::numeric_limits<size_t>::max()`. -/
def size_t_max : Nat := 2 ^ 64 - 1

/-- The scalar fields of `Configuration` (the allocator-backed strings
and the architecture flag do not bear on the claims and are omitted). -/
structure Configuration where
  print_intermediate_solutions : Bool
  stop_after_n_solutions : Nat
  stop_after_n_nodes : Nat
  free_search : Bool
  print_statistics : Bool
  verbose_solving : Bool
  print_ast : Bool
  only_global_memory : Bool
  noatomics : Bool
  timeout_ms : Nat
  or_nodes : Nat
  and_nodes : Nat
  subproblems_power : Nat
  stack_kb : Nat
deriving Repr, DecidableEq

/-- The default constructor `Configuration(alloc)`, field by field from
its initializer list. -/
def Configuration.default_config : Configuration :=
  { print_intermediate_solutions := false
    stop_after_n_solutions := 1
    stop_after_n_nodes := size_t_max
    free_search := false
    verbose_solving := false
    print_ast := false
    print_statistics := false
    only_global_memory := false
    noatomics := false
    timeout_ms := 0
    and_nodes := 0
    or_nodes := 0
    subproblems_power := SUBPROBLEMS_POWER
    stack_kb := STACK_KB }

/-- `List.getD` after `List.set` at the same in-range position. -/
theorem getD_set_same {α : Type} (l : List α) (i : Nat) (a d : α) (h : i < l.length) :
    (l.set i a).getD i d = a := by
  simp [List.getD, List.getElem?_set_self', h]

/-! Further helper lemmas for the builder's `build_store`. -/

theorem dom_data_length (s : VStore) (x : Nat) (itv : Interval) :
    (s.dom x itv).data.length = s.data.length := by
  unfold VStore.dom VStore.update_top
  split <;> simp

theorem domsFrom_length (s : VStore) (i : Nat) (l : List (String × Interval)) :
    (domsFrom s i l).data.length = s.data.length := by
  induction l generalizing s i with
  | nil => rfl
  | cons q rest ih =>
    simp only [domsFrom]
    rw [ih, dom_data_length]

theorem domsFrom_append (s : VStore) (i : Nat) (l : List (String × Interval))
    (p : String × Interval) :
    domsFrom s i (l ++ [p]) = (domsFrom s i l).dom (i + l.length) p.2 := by
  induction l generalizing s i with
  | nil => simp [domsFrom]
  | cons q rest ih =>
    rw [List.cons_append]
    simp only [domsFrom]
    rw [ih]
    congr 1
    simp only [List.length_cons]
    omega

theorem dom_top_of_empty_itv (s : VStore) (x : Nat) (itv : Interval)
    (hr : x < s.data.length) (h : itv.is_top = true) :
    (s.dom x itv).top = true := by
  apply dom_empty_top
  unfold VStore.dom
  rw [update_top_getI, getI_set_self s x itv hr]
  exact h

/-- Registering a variable with the empty domain `(1, 0)` makes the
built store top: its `dom` is the last one executed by `build_store`
and `update_top` raises the flag on the empty slot. -/
theorem build_store_sentinel_top (b : ModelBuilder) (nm : String) :
    ((b.add_var nm 1 0).build_store).is_top = true := by
  unfold ModelBuilder.build_store ModelBuilder.add_var VStore.is_top
  rw [domsFrom_append]
  apply dom_top_of_empty_itv
  · rw [domsFrom_length]
    simp
  · show (Interval.mk 1 0).is_top = true
    decide

/-! ## The claims -/

/-- C1 (counterexample): the claim quantifies over the cited update
operations, including `VStore::update` of vstore.cuh (lines 107-118);
that update overwrites the slot unconditionally, so on the store with
slot 1 = `[5, 5]` the call `update(1, [0, 10])` lowers the lower bound
and raises the upper bound: a bound is widened. -/
theorem C1_old_update_widens :
    (((OldVStore.mk [⟨0, 0⟩, ⟨5, 5⟩]).update 1 ⟨0, 10⟩).1.getItv 1).lb <
        ((OldVStore.mk [⟨0, 0⟩, ⟨5, 5⟩]).getItv 1).lb ∧
    (((OldVStore.mk [⟨0, 0⟩, ⟨5, 5⟩]).update 1 ⟨0, 10⟩).1.getItv 1).ub >
        ((OldVStore.mk [⟨0, 0⟩, ⟨5, 5⟩]).getItv 1).ub := by decide

/-- C1 (amended): for the current `VStore` (cuda_helper.hpp), for every
variable `v` and every sequence of `update_lb` / `update_ub` / `update`
/ `assign` calls, `lb(v)` never decreases and `ub(v)` never increases:
each call either strictly tightens a bound or leaves it unchanged. -/
theorem C1_narrowing_monotone (s : VStore) (ops : List StoreOp)
    (h : ops.all StoreOp.narrowing = true) (v : Nat) :
    (s.getI v).lb ≤ ((s.applyOps ops).getI v).lb ∧
    ((s.applyOps ops).getI v).ub ≤ (s.getI v).ub := by
  induction ops generalizing s with
  | nil => exact ⟨le_refl _, le_refl _⟩
  | cons op rest ih =>
    rw [List.all_cons, Bool.and_eq_true] at h
    have hop := applyOp_mono s op h.1 v
    have hrest := ih (s.applyOp op) h.2
    exact ⟨le_trans hop.1 hrest.1, le_trans hrest.2 hop.2⟩

theorem C1_narrowing_monotone_witness :
    ([StoreOp.update_lb 0 3, StoreOp.update 0 ⟨2, 7⟩, StoreOp.assign 0 5].all
        StoreOp.narrowing = true) ∧
    (((VStore.mk [⟨0, 10⟩] false).getI 0).lb ≤
        (((VStore.mk [⟨0, 10⟩] false).applyOps
          [StoreOp.update_lb 0 3, StoreOp.update 0 ⟨2, 7⟩, StoreOp.assign 0 5]).getI 0).lb ∧
      (((VStore.mk [⟨0, 10⟩] false).applyOps
          [StoreOp.update_lb 0 3, StoreOp.update 0 ⟨2, 7⟩, StoreOp.assign 0 5]).getI 0).ub ≤
        ((VStore.mk [⟨0, 10⟩] false).getI 0).ub) :=
  ⟨by decide, C1_narrowing_monotone _ _ (by decide) 0⟩

/-- C2: once `is_top()` holds it keeps holding under every store
operation (`dom`, `update_lb`, `update_ub`, `update`, `assign`) —
nothing in the store ever clears the flag — and `reset(other)` sets
the flag to exactly `other`'s flag. -/
theorem C2_top_monotone :
    (∀ (s : VStore) (ops : List StoreOp),
      s.is_top = true → (s.applyOps ops).is_top = true) ∧
    (∀ s other : VStore, (s.reset other).is_top = other.is_top) := by
  constructor
  · intro s ops h
    induction ops generalizing s with
    | nil => exact h
    | cons op rest ih => exact ih _ (applyOp_of_top s op h)
  · intro s other
    rfl

theorem C2_top_monotone_witness :
    (VStore.mk [⟨0, 0⟩] true).is_top = true ∧
    ((VStore.mk [⟨0, 0⟩] true).applyOps
      [StoreOp.dom 0 ⟨1, 2⟩, StoreOp.assign 0 3]).is_top = true :=
  ⟨rfl, C2_top_monotone.1 _ _ rfl⟩

/-- C3: whenever one of the update operations turns the targeted
variable's interval from non-empty to empty (`lb > ub`), that same
operation raises the store's top flag; `dom` raises it whenever the
written slot ends up empty, even if it already was. -/
theorem C3_empty_update_sets_top :
    (∀ (s : VStore) (op : StoreOp),
      (s.getI op.target).is_top = false →
      ((s.applyOp op).getI op.target).is_top = true →
      (s.applyOp op).top = true) ∧
    (∀ (s : VStore) (x : Nat) (itv : Interval),
      ((s.dom x itv).getI x).is_top = true → (s.dom x itv).top = true) := by
  constructor
  · intro s op h0 h1
    cases op with
    | dom x itv => exact dom_empty_top s x itv h1
    | update_lb i lb => exact update_lb_empty_top s i lb h0 h1
    | update_ub i ub => exact update_ub_empty_top s i ub h0 h1
    | update i itv => exact update_empty_top s i itv h0 h1
    | assign i v => exact update_empty_top s i ⟨v, v⟩ h0 h1
  · exact dom_empty_top

theorem C3_empty_update_sets_top_witness :
    ((VStore.mk [⟨0, 5⟩] false).getI 0).is_top = false ∧
    (((VStore.mk [⟨0, 5⟩] false).applyOp (StoreOp.update_lb 0 9)).getI 0).is_top = true ∧
    ((VStore.mk [⟨0, 5⟩] false).applyOp (StoreOp.update_lb 0 9)).top = true :=
  ⟨by decide, by decide,
    C3_empty_update_sets_top.1 _ (StoreOp.update_lb 0 9) (by decide) (by decide)⟩

/-- C4: in the vstore.cuh store, for any variable `v > 0` (in range
for the write part), reading through the negated index yields the
negated view and `-(-v)` reads back the positive slot; writing `itv`
through `-v` stores `(-itv.ub, -itv.lb)` into slot `v` and mutates no
other slot (the data is exactly the original with slot `v` replaced). -/
theorem C4_negative_index_view (s : OldVStore) (v : Int) (itv : Interval)
    (hv : 0 < v) (hr : v.toNat < s.data.length) :
    s.getItv (-v) = (s.getItv v).neg ∧
    s.getItv (-(-v)) = s.getItv v ∧
    (s.update (-v) itv).1.data = s.data.set v.toNat ⟨-itv.ub, -itv.lb⟩ ∧
    (s.update (-v) itv).1.getItv v = ⟨-itv.ub, -itv.lb⟩ := by
  have hneg : -v < 0 := by omega
  have hnn : ¬(v < 0) := by omega
  have hvv : -(-v) = v := neg_neg v
  have hdata : (s.update (-v) itv).1.data = s.data.set v.toNat ⟨-itv.ub, -itv.lb⟩ := by
    unfold OldVStore.update
    rw [if_pos hneg, hvv]
  refine ⟨?_, ?_, hdata, ?_⟩
  · unfold OldVStore.getItv
    rw [if_pos hneg, if_neg hnn, hvv]
  · rw [hvv]
  · unfold OldVStore.getItv
    rw [if_neg hnn, hdata, getD_set_same _ _ _ _ (by simpa using hr)]

theorem C4_negative_index_view_witness :
    (0 : Int) < 1 ∧
    ((1 : Int).toNat < (OldVStore.mk [⟨0, 0⟩, ⟨2, 5⟩]).data.length) ∧
    ((OldVStore.mk [⟨0, 0⟩, ⟨2, 5⟩]).getItv (-1) =
        ((OldVStore.mk [⟨0, 0⟩, ⟨2, 5⟩]).getItv 1).neg ∧
      (OldVStore.mk [⟨0, 0⟩, ⟨2, 5⟩]).getItv (-(-1)) =
        (OldVStore.mk [⟨0, 0⟩, ⟨2, 5⟩]).getItv 1 ∧
      ((OldVStore.mk [⟨0, 0⟩, ⟨2, 5⟩]).update (-1) ⟨3, 4⟩).1.data =
        (OldVStore.mk [⟨0, 0⟩, ⟨2, 5⟩]).data.set (1 : Int).toNat ⟨-4, -3⟩ ∧
      ((OldVStore.mk [⟨0, 0⟩, ⟨2, 5⟩]).update (-1) ⟨3, 4⟩).1.getItv 1 = ⟨-4, -3⟩) :=
  ⟨by decide, by decide, C4_negative_index_view _ 1 ⟨3, 4⟩ (by decide) (by decide)⟩

/-- C5 (counterexample): the copy constructor initializes the flag as
`top(false)` instead of copying it: cloning a store whose flag is set
yields a clone whose flag differs from the original's. -/
theorem C5_clone_top_not_copied :
    (VStore.clone (VStore.mk [⟨1, 0⟩] true)).top ≠ (VStore.mk [⟨1, 0⟩] true).top := by
  decide

/-- C5 (amended): cloning yields a structural copy of the intervals —
same size, identical `(lb, ub)` in every slot — but the clone's top
flag is always initialized to `false`, not copied from the original. -/
theorem C5_clone_structural (s : VStore) :
    (s.clone).data = s.data ∧
    (s.clone).size = s.size ∧
    (∀ v : Nat, (s.clone).getI v = s.getI v) ∧
    (s.clone).top = false :=
  ⟨rfl, rfl, fun _ => rfl, rfl⟩

/-- C6 (code evaluation at the failing input): for the unary constraint
`X * 3 <= -8` with `X ∈ [-10, 10]`, `le_mul_domain` computes
`b/a - (-b % a) = -2 - 2 = -4` and sets `ub(X) := -4`, whereas
`floor(-8 / 3) = -3`; the value `X = -3` satisfies `3 * X <= -8` but is
excluded by the bound the code installs. -/
theorem C6_le_mul_domain_not_floor :
    (ModelBuilder.le_mul_domain ⟨[("x", ⟨-10, 10⟩)]⟩ "x" 3 (-8)) =
      Except.ok (ModelBuilder.mk [("x", ⟨-10, -4⟩)]) ∧
    Int.fdiv (-8) 3 = -3 ∧
    (3 : Int) * (-3) ≤ -8 ∧
    ¬((-3 : Int) ≤ -4) := by
  refine ⟨rfl, by decide, by decide, by decide⟩

/-- C7: build-time normalization.  `make_temporal_constraint` rewrites
`<` to `<=` with `k - 1` and `>` to `>=` with `k + 1`, expands `=` into
the logical-and of the `<=` and `>=` propagators, and rejects `!=` and
`in` with a build error; `strengthen_domain2` performs the same
operator normalization on unary domain constraints, its `=` acting as
the `<=` update followed by the `>=` update. -/
theorem C7_operator_normalization :
    (∀ xi yi k : Int,
      make_temporal_constraint xi yi k .LT = make_temporal_constraint xi yi (k - 1) .LE ∧
      make_temporal_constraint xi yi k .GT = make_temporal_constraint xi yi (k + 1) .GE ∧
      make_temporal_constraint xi yi k .EQ =
        .ok (.LogicalAnd (.TemporalProp xi (-yi) (-k)) (.TemporalProp (-xi) yi k)) ∧
      make_temporal_constraint xi yi k .NE = .error unsupported_unary_msg ∧
      make_temporal_constraint xi yi k .IN = .error unsupported_unary_msg) ∧
    (∀ (b : ModelBuilder) (x : String) (k : Int),
      b.strengthen_domain2 x .LT k = b.strengthen_domain2 x .LE (k - 1) ∧
      b.strengthen_domain2 x .GT k = b.strengthen_domain2 x .GE (k + 1) ∧
      b.strengthen_domain2 x .NE k = .error unsupported_unary_msg ∧
      b.strengthen_domain2 x .IN k = .error unsupported_unary_msg) ∧
    (∀ (v : Interval) (k : Int),
      strengthen_itv v .EQ k =
        (strengthen_itv v .LE k).bind (fun w => strengthen_itv w .GE k)) := by
  refine ⟨fun xi yi k => ⟨rfl, rfl, rfl, rfl, rfl⟩,
    fun b x k => ⟨rfl, rfl, rfl, rfl⟩,
    fun v k => rfl⟩

/-- C8: a root-level contradiction — a constant comparison `c1 <= c2`
with `c1 > c2`, or `X * 0 <= b` with `b < 0` — raises no error: both
paths register the sentinel variable with the empty domain `(1, 0)`,
and the store built from such a builder is top from the root. -/
theorem C8_root_contradiction (b : ModelBuilder) (x : String) (c1 c2 bb : Int)
    (h1 : c1 > c2) (h2 : bb < 0) :
    b.tautology c1 c2 = (b.add_var fake_var_name 1 0, true) ∧
    b.le_mul_domain x 0 bb = .ok (b.add_var fake_var_name 1 0) ∧
    (Interval.mk 1 0).is_top = true ∧
    ((b.add_var fake_var_name 1 0).build_store).is_top = true := by
  refine ⟨?_, ?_, by decide, build_store_sentinel_top b fake_var_name⟩
  · unfold ModelBuilder.tautology
    rw [if_neg (not_le.mpr h1)]
  · simp [ModelBuilder.le_mul_domain, h2]

theorem C8_root_contradiction_witness :
    (1 : Int) > 0 ∧ (-1 : Int) < 0 ∧
    ((ModelBuilder.mk [("zero_var(fake)", ⟨0, 0⟩)]).tautology 1 0 =
      ((ModelBuilder.mk [("zero_var(fake)", ⟨0, 0⟩)]).add_var fake_var_name 1 0, true)) ∧
    (((ModelBuilder.mk [("zero_var(fake)", ⟨0, 0⟩)]).add_var
        fake_var_name 1 0).build_store).is_top = true :=
  ⟨by decide, by decide,
    (C8_root_contradiction _ "x" 1 0 (-1) (by decide) (by decide)).1,
    (C8_root_contradiction _ "x" 1 0 (-1) (by decide) (by decide)).2.2.2⟩

/-- C9 (counterexample): the default `Configuration` initializes
`or_nodes(0)`, not 1. -/
theorem C9_default_or_nodes_not_one :
    Configuration.default_config.or_nodes = 0 ∧
    Configuration.default_config.or_nodes ≠ 1 := by decide

/-- C9 (amended): a default-constructed configuration sets `or_nodes`
to 0 and `subproblems_power` to 12, so the root search space is
partitioned into `2^12 = 4096` subproblems by default. -/
theorem C9_default_config :
    Configuration.default_config.or_nodes = 0 ∧
    Configuration.default_config.subproblems_power = 12 ∧
    2 ^ Configuration.default_config.subproblems_power = 4096 := by decide

/-- C10: a default-constructed configuration sets
`stop_after_n_solutions` to 1 — in particular not 0, the value
documented as "all solutions". -/
theorem C10_default_stop_after_one_solution :
    Configuration.default_config.stop_after_n_solutions = 1 ∧
    Configuration.default_config.stop_after_n_solutions ≠ 0 := by decide

end Turbo
